import Mathlib

/-!
Shallow embedding of `src/db_comparison.py` (class `DatabaseComparator`) and
proofs about its structural-diff / DDL-synthesis / synchronization logic.

Modelling conventions:
  * A column descriptor mirrors one row of `SHOW COLUMNS` (the Python dict
    with keys `Field`, `Type`, `Null`, `Key`, `Default`, `Extra`); the Lean
    structure uses lowercase field names because `Type` is a Lean keyword.
  * The two databases are modelled as `DBSchema` values: the table list that
    `SHOW TABLES` would return and, per table, the column-descriptor list
    that `SHOW COLUMNS` would return.  Introspection queries are reads of
    this environment (the connector itself is an external collaborator).
  * Writes on the source connection are recorded in an event log (`Event`):
    executed DDL statements, commits and rollbacks.  `SET FOREIGN_KEY_CHECKS`
    is a session-level flag in MySQL and is therefore modelled as a session
    field, untouched by commit/rollback.
  * Whether executing a given DDL statement raises `mysql.connector.Error`
    is decided by an oracle `String → Option String` (`none` = success,
    `some msg` = an error whose `str(e)` is `msg`), matching the fact that
    DDL success depends on the live database, which is external.
  * Python `str.lower`/`str.upper` are modelled on ASCII (all strings the
    code compares case-insensitively are ASCII SQL keywords), and substring
    tests (`'char' in s`) by list-infix on the character lists.
  * String literals built by the Python code with f-strings are reproduced
    with whitespace normalized to single spaces (the triple-quoted literals
    in the source contain layout indentation that no logic inspects).
  * Sets built by Python (`set(...)`, set difference, intersection) are
    modelled by `dedup`/`filter` on lists; Python's set iteration order is
    unspecified, and every property proved here is insensitive to it.
-/

/-- ASCII lower-casing of one character, as Python `str.lower` acts on ASCII. -/
def charLower (c : Char) : Char :=
  if 'A' ≤ c ∧ c ≤ 'Z' then Char.ofNat (c.toNat + 32) else c

/-- ASCII upper-casing of one character, as Python `str.upper` acts on ASCII. -/
def charUpper (c : Char) : Char :=
  if 'a' ≤ c ∧ c ≤ 'z' then Char.ofNat (c.toNat - 32) else c

/-- Python `s.lower()` on ASCII strings. -/
def strLower (s : String) : String := String.mk (s.toList.map charLower)

/-- Python `s.upper()` on ASCII strings. -/
def strUpper (s : String) : String := String.mk (s.toList.map charUpper)

/-- Python `needle in hay` substring test. -/
def strContains (hay needle : String) : Bool := decide (needle.toList <:+: hay.toList)

/-- One row of `SHOW COLUMNS FROM t`: the Python dict with keys
`Field`, `Type`, `Null`, `Key`, `Default`, `Extra` (lowercased here because
`Type` is a Lean keyword).  `default` is `NULL`-able in MySQL, hence `Option`. -/
structure Column where
  field : String
  type : String
  null : String
  key : String
  default : Option String
  extra : String
deriving DecidableEq, Repr

/-- What the two live databases answer to introspection: `tables` is the
`SHOW TABLES` result, `columns t` the `SHOW COLUMNS FROM t` result. -/
structure DBSchema where
  tables : List String
  columns : String → List Column

/-- The statement prefix built before the `DEFAULT` handling in
`generate_alter_statements`:
`stmt = f"ALTER TABLE {table_name} ADD COLUMN {col['Field']} {col['Type']}"`,
then `" NOT NULL"` appended when `col['Null'] == 'NO'`. -/
def baseColumnStmt (tableName : String) (col : Column) : String :=
  let stmt := "ALTER TABLE " ++ tableName ++ " ADD COLUMN " ++ col.field ++ " " ++ col.type
  if col.null = "NO" then stmt ++ " NOT NULL" else stmt

/-- The full `ADD COLUMN` statement for one target column, including the
three-way `DEFAULT` clause rendering of `generate_alter_statements`
(src/db_comparison.py lines 158-168). -/
def renderColumn (tableName : String) (col : Column) : String :=
  let stmt := baseColumnStmt tableName col
  match col.default with
  | none => stmt
  | some d =>
    if (strLower col.type = "timestamp" ∨ strLower col.type = "datetime") ∧
        strUpper d = "CURRENT_TIMESTAMP" then
      stmt ++ " DEFAULT CURRENT_TIMESTAMP"
    else if strContains (strLower col.type) "char" = true ∨
            strContains (strLower col.type) "text" = true then
      stmt ++ " DEFAULT '" ++ d ++ "'"
    else
      stmt ++ " DEFAULT " ++ d

/-- `DatabaseComparator.generate_alter_statements`: one `ADD COLUMN`
statement per target column whose `Field` is absent from the source column
names; columns present on both sides produce nothing
(src/db_comparison.py lines 148-171). -/
def generate_alter_statements (tableName : String)
    (sourceCols targetCols : List Column) : List String :=
  (targetCols.filter
      (fun col => decide (col.field ∉ sourceCols.map Column.field))).map
    (renderColumn tableName)

/-- `DatabaseComparator.compare_structures` (src/db_comparison.py lines
173-197).  When `connect()` fails it returns `([], [], [])` — the empty
diff — exactly as the Python returns `[], [], {}`.  Otherwise it computes
the two table-set differences and, for each common table, reports the table
with both full column lists when the ordered lists are unequal.  The
`different_structures` dict is modelled as the list of its
`(table, source columns, target columns)` entries. -/
def compare_structures (connectOk : Bool) (src tgt : DBSchema) :
    List String × List String × List (String × List Column × List Column) :=
  if connectOk = false then ([], [], [])
  else
    let sourceTables := src.tables.dedup
    let targetTables := tgt.tables.dedup
    let missingInSource := targetTables.filter (fun t => decide (t ∉ sourceTables))
    let missingInTarget := sourceTables.filter (fun t => decide (t ∉ targetTables))
    let commonTables := sourceTables.filter (fun t => decide (t ∈ targetTables))
    let differentStructures := commonTables.filterMap (fun t =>
      if src.columns t ≠ tgt.columns t then
        some (t, src.columns t, tgt.columns t)
      else none)
    (missingInSource, missingInTarget, differentStructures)

/-- One observable action on the source connection: a successfully executed
DDL/DML statement, a `commit()`, or a `rollback()`. -/
inductive Event where
  | exec (stmt : String)
  | commit
  | rollback
deriving DecidableEq, Repr

/-- State of the source session: the ordered event log of the run and the
session-level `FOREIGN_KEY_CHECKS` flag (session variables are not
transactional, so the flag lives outside the log). -/
structure DB where
  log : List Event
  fkChecks : Bool
deriving DecidableEq, Repr

/-- A fresh session: nothing executed, foreign-key checks at their MySQL
default (enabled). -/
def DB.init : DB := { log := [], fkChecks := true }

/-- `cursor.execute(s)` for a schema-affecting statement: the oracle decides
whether the statement raises; a raising statement has no effect on the log. -/
def execStmt (oracle : String → Option String) (db : DB) (s : String) :
    DB × Option String :=
  match oracle s with
  | none => ({ db with log := db.log ++ [Event.exec s] }, none)
  | some msg => (db, some msg)

/-- `cursor.execute("SET FOREIGN_KEY_CHECKS=...")`: toggles the session flag. -/
def setFkChecks (db : DB) (b : Bool) : DB := { db with fkChecks := b }

/-- `connection.commit()`. -/
def commitDb (db : DB) : DB := { db with log := db.log ++ [Event.commit] }

/-- `connection.rollback()`. -/
def rollbackDb (db : DB) : DB := { db with log := db.log ++ [Event.rollback] }

/-- Transaction semantics of an event log: fold left over the events keeping
(committed writes, pending writes); `commit` promotes pending writes,
`rollback` discards them. -/
def evalLog (c p : List String) : List Event → List String × List String
  | [] => (c, p)
  | Event.exec s :: es => evalLog c (p ++ [s]) es
  | Event.commit :: es => evalLog (c ++ p) [] es
  | Event.rollback :: es => evalLog c [] es

/-- The writes of a run that survive in the source schema after the run:
the committed part of the log. -/
def committedWrites (l : List Event) : List String := (evalLog [] [] l).1

/-- Statement texts issued by `handle_dosen_tables`
(src/db_comparison.py lines 60-146). -/
def dropFkStmt (name : String) : String :=
  "ALTER TABLE dosen_wali_prodi DROP FOREIGN KEY `" ++ name ++ "`"

/-- Unique-index creation on the roster table's natural key (line 95). -/
def addNidnIndexStmt : String :=
  "ALTER TABLE dosen ADD UNIQUE INDEX idx_dosen_nidn (nidn)"

/-- Drop of the roster-assignment table (line 102). -/
def dropWaliProdiStmt : String := "DROP TABLE IF EXISTS dosen_wali_prodi"

/-- The fixed hardcoded schema the roster-assignment table is recreated
with (lines 104-116; layout whitespace normalized). -/
def createWaliProdiStmt : String :=
  "CREATE TABLE dosen_wali_prodi (id int NOT NULL AUTO_INCREMENT, " ++
  "nidn varchar(20) CHARACTER SET latin1 COLLATE latin1_swedish_ci DEFAULT NULL, " ++
  "prodi_id int DEFAULT NULL, tahun_ajar varchar(9) DEFAULT NULL, " ++
  "created_at datetime DEFAULT CURRENT_TIMESTAMP, " ++
  "updated_at datetime DEFAULT CURRENT_TIMESTAMP ON UPDATE CURRENT_TIMESTAMP, " ++
  "PRIMARY KEY (id), UNIQUE KEY unique_prodi_tahun (prodi_id,tahun_ajar), " ++
  "KEY nidn (nidn)) ENGINE=InnoDB DEFAULT CHARSET=latin1"

/-- First re-added foreign key of the roster-assignment table (lines 122-126). -/
def waliProdiFk1Stmt : String :=
  "ALTER TABLE dosen_wali_prodi ADD CONSTRAINT dosen_wali_prodi_ibfk_1 " ++
  "FOREIGN KEY (nidn) REFERENCES dosen (nidn)"

/-- Second re-added foreign key of the roster-assignment table (lines 128-132). -/
def waliProdiFk2Stmt : String :=
  "ALTER TABLE dosen_wali_prodi ADD CONSTRAINT dosen_wali_prodi_ibfk_2 " ++
  "FOREIGN KEY (prodi_id) REFERENCES prodi (id_prodi)"

/-- Data the handler's two read-only `information_schema` queries return:
the foreign-key constraint names currently on `dosen_wali_prodi` and whether
`idx_dosen_nidn` already exists on `dosen`. -/
structure HandlerEnv where
  wpConstraints : List String
  dosenIdxExists : Bool

/-- The constraint-dropping loop of step 1 of `handle_dosen_tables`
(lines 76-77).  Its enclosing `try` swallows any `Error`, so a failing drop
merely stops the loop; it never fails the handler. -/
def dropConstraintsLoop (oracle : String → Option String) (db : DB) :
    List String → DB
  | [] => db
  | c :: cs =>
    match execStmt oracle db (dropFkStmt c) with
    | (db1, none) => dropConstraintsLoop oracle db1 cs
    | (db1, some _) => db1

/-- Step 2 of `handle_dosen_tables` (lines 83-98): if `idx_dosen_nidn` does
not yet exist on `dosen`, create it; a failure whose message contains
"Duplicate" is swallowed, any other failure is re-raised. -/
def handlerStep2 (env : HandlerEnv) (oracle : String → Option String)
    (db1 : DB) : DB × Option String :=
  if env.dosenIdxExists then (db1, none)
  else
    match execStmt oracle db1 addNidnIndexStmt with
    | (db2, none) => (db2, none)
    | (db2, some msg) =>
      if strContains msg "Duplicate" = true then (db2, none) else (db2, some msg)

/-- Steps 3 and 4 of `handle_dosen_tables` (lines 100-138): unconditionally
drop and recreate `dosen_wali_prodi` with the fixed schema, re-add its two
foreign keys with foreign-key checks disabled around the operation, then
`SET FOREIGN_KEY_CHECKS=1`, commit and return `True`; any raised error
falls to the handler's `except` clause, which rolls back and returns
`False`. -/
def handlerTail (oracle : String → Option String) (db2 : DB) : Bool × DB :=
  match execStmt oracle db2 dropWaliProdiStmt with
  | (db3, some _) => (false, rollbackDb db3)
  | (db3, none) =>
    match execStmt oracle db3 createWaliProdiStmt with
    | (db4, some _) => (false, rollbackDb db4)
    | (db4, none) =>
      let db5 := setFkChecks db4 false
      match execStmt oracle db5 waliProdiFk1Stmt with
      | (db6, some _) => (false, rollbackDb db6)
      | (db6, none) =>
        match execStmt oracle db6 waliProdiFk2Stmt with
        | (db7, some _) => (false, rollbackDb db7)
        | (db7, none) =>
          let db8 := setFkChecks db7 true
          (true, commitDb db8)

/-- `DatabaseComparator.handle_dosen_tables` (src/db_comparison.py lines
60-146): drop the roster-assignment table's foreign keys (failures
swallowed), ensure the unique index on `dosen.nidn`, then drop, recreate
and re-link `dosen_wali_prodi`; a re-raised error at any point rolls the
whole transaction back and reports failure. -/
def handle_dosen_tables (env : HandlerEnv) (oracle : String → Option String)
    (db : DB) : Bool × DB :=
  match handlerStep2 env oracle (dropConstraintsLoop oracle db env.wpConstraints) with
  | (db2, some _) => (false, rollbackDb db2)
  | (db2, none) => handlerTail oracle db2

/-- One row of the `information_schema.KEY_COLUMN_USAGE` query the generic
missing-table handler issues on the target (src/db_comparison.py lines
254-264): column, referenced table, referenced column, constraint name. -/
structure FKRow where
  colName : String
  refTable : String
  refCol : String
  constraintName : String
deriving DecidableEq, Repr

/-- The `ALTER TABLE ... ADD CONSTRAINT ... FOREIGN KEY ...` statement the
generic handler builds (lines 277-287), with the `ON DELETE` / `ON UPDATE`
clauses appended only for rules other than `RESTRICT`. -/
def fkAddStmt (table : String) (r : FKRow) (delRule updRule : String) : String :=
  let base := "ALTER TABLE " ++ table ++ " ADD CONSTRAINT `fk_" ++ table ++ "_" ++
    r.refTable ++ "_" ++ r.colName ++ "` FOREIGN KEY (" ++ r.colName ++
    ") REFERENCES " ++ r.refTable ++ "(" ++ r.refCol ++ ")"
  let s1 := if delRule ≠ "RESTRICT" then base ++ " ON DELETE " ++ delRule else base
  if updRule ≠ "RESTRICT" then s1 ++ " ON UPDATE " ++ updRule else s1

/-- The supporting-index creation used in the "Missing index" self-healing
retry (line 295). -/
def addColIndexStmt (table colName : String) : String :=
  "ALTER TABLE " ++ table ++ " ADD INDEX (`" ++ colName ++ "`)"

/-- Everything one sync run of `DatabaseComparator` observes from outside:
the outcome of `connect()`, the two schemas, the handler's query results,
the DDL failure oracle, and the target-side data of the missing-table path —
`preparedCreate t` is the `SHOW CREATE TABLE t` text after the two regex
rewrites that strip inline foreign-key clauses and the `AUTO_INCREMENT`
start value (lines 222-242; the rewrites run on target-provided text and no
claim inspects the result, so the prepared text is taken as given),
`fkRows t` the `KEY_COLUMN_USAGE` rows, and `rules c` the
`REFERENTIAL_CONSTRAINTS` delete/update rules for constraint `c` (already
defaulted to `('RESTRICT', 'RESTRICT')` as by `fetchone() or ...`). -/
structure RunEnv where
  connectOk : Bool
  src : DBSchema
  tgt : DBSchema
  henv : HandlerEnv
  oracle : String → Option String
  preparedCreate : String → String
  fkRows : String → List FKRow
  rules : String → String × String

/-- `DatabaseComparator.connect`, abstracted to its observable outcome. -/
def connect (env : RunEnv) : Bool := env.connectOk

/-- The foreign-key re-adding loop of the missing-table path (lines
266-296): a failure whose message contains "Missing index" triggers index
creation and one retry whose failure propagates; any other failure is
swallowed and the loop continues. -/
def addFkLoop (oracle : String → Option String) (rules : String → String × String)
    (table : String) (db : DB) : List FKRow → DB × Option String
  | [] => (db, none)
  | r :: rs =>
    let ru := rules r.constraintName
    let fk := fkAddStmt table r ru.1 ru.2
    match execStmt oracle db fk with
    | (db1, none) => addFkLoop oracle rules table db1 rs
    | (db1, some msg) =>
      if strContains msg "Missing index" = true then
        match execStmt oracle db1 (addColIndexStmt table r.colName) with
        | (db2, some m2) => (db2, some m2)
        | (db2, none) =>
          match execStmt oracle db2 fk with
          | (db3, some m3) => (db3, some m3)
          | (db3, none) => addFkLoop oracle rules table db3 rs
      else
        addFkLoop oracle rules table db1 rs

/-- The missing-table loop of the executing copy of `sync_structures`
(lines 218-296): for every table missing in the source other than the two
special-cased ones, execute the prepared `CREATE TABLE` (a failure is
re-raised) and then re-add the target's foreign keys for it. -/
def createTablesLoop (env : RunEnv) (db : DB) : List String → DB × Option String
  | [] => (db, none)
  | t :: ts =>
    if t = "dosen" ∨ t = "dosen_wali_prodi" then createTablesLoop env db ts
    else
      match execStmt env.oracle db (env.preparedCreate t) with
      | (db1, some msg) => (db1, some msg)
      | (db1, none) =>
        match addFkLoop env.oracle env.rules t db1 (env.fkRows t) with
        | (db2, some msg) => (db2, some msg)
        | (db2, none) => createTablesLoop env db2 ts

/-- The special-case trigger of `sync_structures` (lines 212-213): some
table named `dosen` or `dosen_wali_prodi` occurs among the tables missing
in the source or among the keys of `different_structures`. -/
def needsDosenHandling (ms : List String)
    (ds : List (String × List Column × List Column)) : Bool :=
  ms.any (fun t => t = "dosen" || t = "dosen_wali_prodi") ||
  ds.any (fun e => e.1 = "dosen" || e.1 = "dosen_wali_prodi")

/-- The special-case handler exactly as `sync_structures` invokes it: on the
session that has just executed `SET FOREIGN_KEY_CHECKS=0` (line 209). -/
def handlerRun (env : RunEnv) : Bool × DB :=
  handle_dosen_tables env.henv env.oracle (setFkChecks DB.init false)

/-- The tail of the executing copy of `sync_structures` after the
special-case check (lines 217-312): the missing-table loop, then — in the
executing first copy of the function body — no different-structures
handling at all (lines 298-299 hold only the comment
"Rest of the synchronization code..."; the loops that would execute the
`ALTER TABLE` statements sit after the first `return` and are unreachable),
then `SET FOREIGN_KEY_CHECKS=1`, `commit()` and `True`; a raised error
rolls back and yields `False`. -/
def syncGeneric (env : RunEnv) (db : DB) (ms : List String) : Bool × DB :=
  match createTablesLoop env db ms with
  | (db1, some _) => (false, rollbackDb db1)
  | (db1, none) =>
    let db2 := setFkChecks db1 true
    (true, commitDb db2)

/-- `DatabaseComparator.sync_structures` — the copy of the body that
actually executes (src/db_comparison.py lines 199-312; the second and third
copies of the body, lines 313-523, are unreachable).  Recompute the diff;
if nothing is missing in the source and nothing differs, report success;
otherwise disable foreign-key checks, run the special-case handler first
when a special table is implicated (returning `False` directly on its
failure), run the missing-table loop, re-enable checks, commit. -/
def sync_structures (env : RunEnv) : Bool × DB :=
  let r := compare_structures (connect env) env.src env.tgt
  let ms := r.1
  let ds := r.2.2
  if ms.isEmpty && ds.isEmpty then (true, DB.init)
  else
    let db1 := setFkChecks DB.init false
    if needsDosenHandling ms ds then
      match handlerRun env with
      | (false, db2) => (false, db2)
      | (true, db2) => syncGeneric env db2 ms
    else
      syncGeneric env db1 ms

/-- The part of a sync run's log written by the special-case handler: its
whole log when the handler was invoked, empty otherwise. -/
def handlerPortion (env : RunEnv) : List Event :=
  let r := compare_structures (connect env) env.src env.tgt
  if needsDosenHandling r.1 r.2.2 then (handlerRun env).2.log else []

/-- Example columns named `a`, `b`, `c` for the additive-synthesis scenario
of the spec (target `{a,b,c}` versus source `{a,b}`). -/
def colA : Column :=
  { field := "a", type := "int", null := "YES", key := "", default := none, extra := "" }

/-- Second shared example column. -/
def colB : Column :=
  { field := "b", type := "varchar(50)", null := "YES", key := "", default := none, extra := "" }

/-- The example column present only in the target. -/
def colC : Column :=
  { field := "c", type := "int", null := "YES", key := "", default := none, extra := "" }

/-- An `int NOT NULL DEFAULT 0` column, the spec's unquoted-default example. -/
def colIntDef : Column :=
  { field := "n", type := "int", null := "NO", key := "", default := some "0", extra := "" }

/-- A `varchar` column whose default value contains a single quote. -/
def colNote : Column :=
  { field := "note", type := "varchar(100)", null := "YES", key := "",
    default := some "it's", extra := "" }

/-- A schema whose only table `users` has one column. -/
def schemaUsersSrc : DBSchema :=
  { tables := ["users"], columns := fun t => if t = "users" then [colA] else [] }

/-- A schema whose only table `users` has two columns, so that `users` is a
common table with differing ordered column lists. -/
def schemaUsersTgt : DBSchema :=
  { tables := ["users"], columns := fun t => if t = "users" then [colA, colC] else [] }

/-- An oracle under which every statement succeeds. -/
def oracleOk : String → Option String := fun _ => none

/-- Handler environment with nothing to drop and the index already present. -/
def henvTrivial : HandlerEnv := { wpConstraints := [], dosenIdxExists := true }

/-- Handler environment with one constraint to drop and the index missing. -/
def henvBusy : HandlerEnv :=
  { wpConstraints := ["dosen_wali_prodi_ibfk_1"], dosenIdxExists := false }

/-- A run on which both connections succeed, the only table `users` is
common with differing column lists, no table is missing in the source, and
every statement would succeed. -/
def envUsersDiffer : RunEnv :=
  { connectOk := true, src := schemaUsersSrc, tgt := schemaUsersTgt,
    henv := henvTrivial, oracle := oracleOk,
    preparedCreate := fun t => "CREATE TABLE " ++ t ++ " (id int)",
    fkRows := fun _ => [], rules := fun _ => ("RESTRICT", "RESTRICT") }

/-- A run on which establishing the connections fails, while the schemas do
in fact differ. -/
def envConnFail : RunEnv :=
  { connectOk := false, src := schemaUsersSrc, tgt := schemaUsersTgt,
    henv := henvTrivial, oracle := oracleOk,
    preparedCreate := fun t => "CREATE TABLE " ++ t ++ " (id int)",
    fkRows := fun _ => [], rules := fun _ => ("RESTRICT", "RESTRICT") }

/-- The source schema of the mixed special/generic runs: it has `dosen`
(with one column) and lacks `orders`. -/
def schemaMixedSrc : DBSchema :=
  { tables := ["dosen"], columns := fun t => if t = "dosen" then [colA] else [] }

/-- The target schema of the mixed runs: `dosen` has an extra column and
`orders` exists. -/
def schemaMixedTgt : DBSchema :=
  { tables := ["dosen", "orders"],
    columns := fun t => if t = "dosen" then [colA, colB] else [colC] }

/-- A run in which `dosen` differs (so the special-case handler runs and
succeeds, committing its writes) and the later generic creation of `orders`
fails, so the sync run as a whole fails after the handler's commit. -/
def envHandlerThenFail : RunEnv :=
  { connectOk := true, src := schemaMixedSrc, tgt := schemaMixedTgt,
    henv := henvBusy,
    oracle := fun s => if s = "CREATE TABLE orders (id int)" then some "boom" else none,
    preparedCreate := fun t => "CREATE TABLE " ++ t ++ " (id int)",
    fkRows := fun _ => [], rules := fun _ => ("RESTRICT", "RESTRICT") }

/-- A run in which `dosen` differs and the handler itself fails while
recreating `dosen_wali_prodi`. -/
def envHandlerFails : RunEnv :=
  { connectOk := true, src := schemaMixedSrc, tgt := schemaMixedTgt,
    henv := henvBusy,
    oracle := fun s => if s = createWaliProdiStmt then some "boom" else none,
    preparedCreate := fun t => "CREATE TABLE " ++ t ++ " (id int)",
    fkRows := fun _ => [], rules := fun _ => ("RESTRICT", "RESTRICT") }

/-- Logs consisting only of successfully executed statements: no commit and
no rollback among the events. -/
def execOnly (es : List Event) : Prop := ∀ e ∈ es, ∃ s, e = Event.exec s

/-- Relation between session states linked by statement executions only:
the log grows by executed statements (no commit, no rollback) and the
foreign-key-checks flag is untouched. -/
def stepExec (db db' : DB) : Prop :=
  (∃ es, db'.log = db.log ++ es ∧ execOnly es) ∧ db'.fkChecks = db.fkChecks

theorem execOnly_nil : execOnly [] := by
  intro e he
  exact absurd he (List.not_mem_nil e)

theorem execOnly_single (s : String) : execOnly [Event.exec s] := by
  intro e he
  simp only [List.mem_singleton] at he
  exact ⟨s, he⟩

theorem execOnly_append {es1 es2 : List Event} (h1 : execOnly es1)
    (h2 : execOnly es2) : execOnly (es1 ++ es2) := by
  intro e he
  rcases List.mem_append.mp he with h | h
  · exact h1 e h
  · exact h2 e h

theorem execOnly_not_rollback {es : List Event} (h : execOnly es) :
    Event.rollback ∉ es := by
  intro hmem
  obtain ⟨s, hs⟩ := h Event.rollback hmem
  exact Event.noConfusion hs

theorem execOnly_not_commit {es : List Event} (h : execOnly es) :
    Event.commit ∉ es := by
  intro hmem
  obtain ⟨s, hs⟩ := h Event.commit hmem
  exact Event.noConfusion hs

theorem evalLog_append (c p : List String) (l1 l2 : List Event) :
    evalLog c p (l1 ++ l2) =
      evalLog (evalLog c p l1).1 (evalLog c p l1).2 l2 := by
  induction l1 generalizing c p with
  | nil => simp [evalLog]
  | cons e es ih => cases e <;> simp [evalLog, ih]

theorem evalLog_execOnly_fst {es : List Event} (h : execOnly es)
    (c p : List String) : (evalLog c p es).1 = c := by
  induction es generalizing p with
  | nil => simp [evalLog]
  | cons e es ih =>
    obtain ⟨s, hs⟩ := h e (List.mem_cons_self e es)
    subst hs
    simp only [evalLog]
    exact ih (fun x hx => h x (List.mem_cons_of_mem _ hx)) (p ++ [s])

theorem committedWrites_execs_rollback (l : List Event) {es : List Event}
    (hex : execOnly es) :
    committedWrites (l ++ es ++ [Event.rollback]) = committedWrites l := by
  unfold committedWrites
  rw [List.append_assoc, evalLog_append, evalLog_append,
    evalLog_execOnly_fst hex]
  simp [evalLog]

theorem stepExec_refl (db : DB) : stepExec db db :=
  ⟨⟨[], by simp, execOnly_nil⟩, rfl⟩

theorem stepExec_trans {a b c : DB} (h1 : stepExec a b) (h2 : stepExec b c) :
    stepExec a c := by
  obtain ⟨⟨es1, hl1, he1⟩, hf1⟩ := h1
  obtain ⟨⟨es2, hl2, he2⟩, hf2⟩ := h2
  exact ⟨⟨es1 ++ es2, by rw [hl2, hl1, List.append_assoc],
    execOnly_append he1 he2⟩, hf2.trans hf1⟩

theorem execStmt_stepExec (oracle : String → Option String) (db : DB)
    (s : String) : stepExec db (execStmt oracle db s).1 := by
  unfold execStmt
  cases oracle s with
  | none => exact ⟨⟨[Event.exec s], rfl, execOnly_single s⟩, rfl⟩
  | some m => exact stepExec_refl db

theorem stepExec_execApp (db : DB) (s : String) :
    stepExec db { log := db.log ++ [Event.exec s], fkChecks := db.fkChecks } :=
  ⟨⟨[Event.exec s], rfl, execOnly_single s⟩, rfl⟩

theorem dropConstraintsLoop_stepExec (oracle : String → Option String)
    (db : DB) (cs : List String) :
    stepExec db (dropConstraintsLoop oracle db cs) := by
  induction cs generalizing db with
  | nil => exact stepExec_refl db
  | cons c cs ih =>
    unfold dropConstraintsLoop
    cases h : execStmt oracle db (dropFkStmt c) with
    | mk db1 r =>
      have h1 : stepExec db db1 := by
        have h2 := execStmt_stepExec oracle db (dropFkStmt c)
        rwa [h] at h2
      cases r with
      | none => exact stepExec_trans h1 (ih db1)
      | some m => exact h1

theorem handlerStep2_stepExec (env : HandlerEnv)
    (oracle : String → Option String) (db1 : DB) :
    stepExec db1 (handlerStep2 env oracle db1).1 := by
  unfold handlerStep2
  cases env.dosenIdxExists with
  | true => exact stepExec_refl db1
  | false =>
    simp only [Bool.false_eq_true, if_false]
    cases h : execStmt oracle db1 addNidnIndexStmt with
    | mk db2 r =>
      have h1 : stepExec db1 db2 := by
        have h2 := execStmt_stepExec oracle db1 addNidnIndexStmt
        rwa [h] at h2
      cases r with
      | none => exact h1
      | some msg =>
        cases hc : strContains msg "Duplicate" <;> simp [hc] <;> exact h1

theorem addFkLoop_stepExec (oracle : String → Option String)
    (rules : String → String × String) (table : String) (db : DB)
    (rs : List FKRow) : stepExec db (addFkLoop oracle rules table db rs).1 := by
  induction rs generalizing db with
  | nil => exact stepExec_refl db
  | cons r rs ih =>
    simp only [addFkLoop]
    cases h1 : oracle (fkAddStmt table r (rules r.constraintName).1
        (rules r.constraintName).2) with
    | none =>
      simp only [execStmt, h1]
      exact stepExec_trans (stepExec_execApp db _) (ih _)
    | some msg =>
      simp only [execStmt, h1]
      cases hmi : strContains msg "Missing index" with
      | false =>
        rw [if_neg (by decide)]
        exact ih db
      | true =>
        rw [if_pos rfl]
        cases h2 : oracle (addColIndexStmt table r.colName) with
        | some m2 =>
          simp only [h2]
          exact stepExec_refl db
        | none =>
          simp only [h2]
          exact stepExec_execApp db _

theorem createTablesLoop_stepExec (env : RunEnv) (db : DB) (ts : List String) :
    stepExec db (createTablesLoop env db ts).1 := by
  induction ts generalizing db with
  | nil => exact stepExec_refl db
  | cons t ts ih =>
    simp only [createTablesLoop]
    by_cases hsp : t = "dosen" ∨ t = "dosen_wali_prodi"
    · simp only [hsp, if_true]
      exact ih db
    · simp only [hsp, if_false]
      cases h1 : env.oracle (env.preparedCreate t) with
      | some msg =>
        simp only [execStmt, h1]
        exact stepExec_refl db
      | none =>
        simp only [execStmt, h1]
        cases h2 : addFkLoop env.oracle env.rules t
            { log := db.log ++ [Event.exec (env.preparedCreate t)],
              fkChecks := db.fkChecks } (env.fkRows t) with
        | mk db2 e2 =>
          have s2 : stepExec
              { log := db.log ++ [Event.exec (env.preparedCreate t)],
                fkChecks := db.fkChecks } db2 := by
            have h := addFkLoop_stepExec env.oracle env.rules t
              { log := db.log ++ [Event.exec (env.preparedCreate t)],
                fkChecks := db.fkChecks } (env.fkRows t)
            rwa [h2] at h
          cases e2 with
          | some msg => exact stepExec_trans (stepExec_execApp db _) s2
          | none =>
            exact stepExec_trans (stepExec_execApp db _) (stepExec_trans s2 (ih db2))

theorem execOnly_cons (s : String) {es : List Event} (h : execOnly es) :
    execOnly (Event.exec s :: es) := by
  intro e he
  rcases List.mem_cons.mp he with rfl | hmem
  · exact ⟨s, rfl⟩
  · exact h e hmem

theorem handlerTail_success (oracle : String → Option String) (db : DB)
    (h : (handlerTail oracle db).1 = true) :
    (handlerTail oracle db).2 =
      { log := db.log ++ [Event.exec dropWaliProdiStmt,
          Event.exec createWaliProdiStmt, Event.exec waliProdiFk1Stmt,
          Event.exec waliProdiFk2Stmt, Event.commit],
        fkChecks := true } := by
  cases h1 : oracle dropWaliProdiStmt with
  | some m => simp [handlerTail, execStmt, h1] at h
  | none =>
  cases h2 : oracle createWaliProdiStmt with
  | some m => simp [handlerTail, execStmt, h1, h2] at h
  | none =>
  cases h3 : oracle waliProdiFk1Stmt with
  | some m => simp [handlerTail, execStmt, h1, h2, h3, setFkChecks] at h
  | none =>
  cases h4 : oracle waliProdiFk2Stmt with
  | some m => simp [handlerTail, execStmt, h1, h2, h3, h4, setFkChecks] at h
  | none =>
    simp [handlerTail, execStmt, h1, h2, h3, h4, setFkChecks, commitDb]

theorem handlerTail_fail (oracle : String → Option String) (db : DB)
    (hfk : db.fkChecks = false) (h : (handlerTail oracle db).1 = false) :
    ∃ es, (handlerTail oracle db).2.log = db.log ++ es ++ [Event.rollback] ∧
      execOnly es ∧ (handlerTail oracle db).2.fkChecks = false := by
  cases h1 : oracle dropWaliProdiStmt with
  | some m =>
    refine ⟨[], ?_, execOnly_nil, ?_⟩ <;>
      simp [handlerTail, execStmt, h1, rollbackDb, hfk]
  | none =>
  cases h2 : oracle createWaliProdiStmt with
  | some m =>
    refine ⟨[Event.exec dropWaliProdiStmt], ?_,
      execOnly_cons _ execOnly_nil, ?_⟩ <;>
      simp [handlerTail, execStmt, h1, h2, rollbackDb, hfk]
  | none =>
  cases h3 : oracle waliProdiFk1Stmt with
  | some m =>
    refine ⟨[Event.exec dropWaliProdiStmt, Event.exec createWaliProdiStmt], ?_,
      execOnly_cons _ (execOnly_cons _ execOnly_nil), ?_⟩ <;>
      simp [handlerTail, execStmt, h1, h2, h3, rollbackDb, setFkChecks]
  | none =>
  cases h4 : oracle waliProdiFk2Stmt with
  | some m =>
    refine ⟨[Event.exec dropWaliProdiStmt, Event.exec createWaliProdiStmt,
      Event.exec waliProdiFk1Stmt], ?_,
      execOnly_cons _ (execOnly_cons _ (execOnly_cons _ execOnly_nil)), ?_⟩ <;>
      simp [handlerTail, execStmt, h1, h2, h3, h4, rollbackDb, setFkChecks]
  | none =>
    simp [handlerTail, execStmt, h1, h2, h3, h4, setFkChecks, commitDb] at h

theorem handler_fail_shape (env : HandlerEnv) (oracle : String → Option String)
    (db : DB) (hfk : db.fkChecks = false)
    (h : (handle_dosen_tables env oracle db).1 = false) :
    ∃ es, (handle_dosen_tables env oracle db).2.log =
        db.log ++ es ++ [Event.rollback] ∧
      execOnly es ∧ (handle_dosen_tables env oracle db).2.fkChecks = false := by
  unfold handle_dosen_tables at h ⊢
  cases hs : handlerStep2 env oracle (dropConstraintsLoop oracle db env.wpConstraints) with
  | mk db2 r =>
    have hstep : stepExec db db2 := by
      have ha := dropConstraintsLoop_stepExec oracle db env.wpConstraints
      have hb := handlerStep2_stepExec env oracle
        (dropConstraintsLoop oracle db env.wpConstraints)
      rw [hs] at hb
      exact stepExec_trans ha hb
    obtain ⟨⟨es1, hlog1, hex1⟩, hfk1⟩ := hstep
    rw [hs] at h
    cases r with
    | some m =>
      refine ⟨es1, ?_, hex1, ?_⟩
      · simp [rollbackDb, hlog1]
      · simp [rollbackDb, hfk1, hfk]
    | none =>
      have hfk2 : db2.fkChecks = false := hfk1.trans hfk
      obtain ⟨es2, hlog2, hex2, hfk3⟩ := handlerTail_fail oracle db2 hfk2 h
      refine ⟨es1 ++ es2, ?_, execOnly_append hex1 hex2, hfk3⟩
      rw [hlog2, hlog1]
      simp [List.append_assoc]

theorem handler_success_shape (env : HandlerEnv)
    (oracle : String → Option String) (db : DB)
    (h : (handle_dosen_tables env oracle db).1 = true) :
    ∃ pre, (handle_dosen_tables env oracle db).2.log = pre ++
      [Event.exec dropWaliProdiStmt, Event.exec createWaliProdiStmt,
       Event.exec waliProdiFk1Stmt, Event.exec waliProdiFk2Stmt,
       Event.commit] := by
  unfold handle_dosen_tables at h ⊢
  cases hs : handlerStep2 env oracle (dropConstraintsLoop oracle db env.wpConstraints) with
  | mk db2 r =>
    rw [hs] at h
    cases r with
    | some m => simp at h
    | none =>
      rw [handlerTail_success oracle db2 h]
      exact ⟨db2.log, rfl⟩

theorem needsDosen_not_empty {ms : List String}
    {ds : List (String × List Column × List Column)}
    (h : needsDosenHandling ms ds = true) :
    (ms.isEmpty && ds.isEmpty) = false := by
  cases ms with
  | cons a l => rfl
  | nil =>
    cases ds with
    | cons a l => rfl
    | nil => simp [needsDosenHandling] at h

theorem sync_handler_fail (env : RunEnv)
    (hneed : needsDosenHandling
      (compare_structures (connect env) env.src env.tgt).1
      (compare_structures (connect env) env.src env.tgt).2.2 = true)
    (hf : (handlerRun env).1 = false) :
    sync_structures env = (false, (handlerRun env).2) := by
  have h0 := needsDosen_not_empty hneed
  simp only [sync_structures]
  rw [h0, if_neg (by decide), hneed, if_pos rfl]
  cases hr : handlerRun env with
  | mk b db2 =>
    rw [hr] at hf
    cases b with
    | false => rfl
    | true => simp at hf

theorem sync_handler_success (env : RunEnv)
    (hneed : needsDosenHandling
      (compare_structures (connect env) env.src env.tgt).1
      (compare_structures (connect env) env.src env.tgt).2.2 = true)
    (hf : (handlerRun env).1 = true) :
    sync_structures env = syncGeneric env (handlerRun env).2
      (compare_structures (connect env) env.src env.tgt).1 := by
  have h0 := needsDosen_not_empty hneed
  simp only [sync_structures]
  rw [h0, if_neg (by decide), hneed, if_pos rfl]
  cases hr : handlerRun env with
  | mk b db2 =>
    rw [hr] at hf
    cases b with
    | true => rfl
    | false => simp at hf

theorem sync_no_dosen (env : RunEnv)
    (h0 : ((compare_structures (connect env) env.src env.tgt).1.isEmpty &&
      (compare_structures (connect env) env.src env.tgt).2.2.isEmpty) = false)
    (hneed : needsDosenHandling
      (compare_structures (connect env) env.src env.tgt).1
      (compare_structures (connect env) env.src env.tgt).2.2 = false) :
    sync_structures env = syncGeneric env (setFkChecks DB.init false)
      (compare_structures (connect env) env.src env.tgt).1 := by
  simp only [sync_structures]
  rw [h0, if_neg (by decide), hneed, if_neg (by decide)]

theorem syncGeneric_log (env : RunEnv) (db : DB) (ms : List String) :
    ∃ es, (syncGeneric env db ms).2.log = db.log ++ es := by
  unfold syncGeneric
  cases hc : createTablesLoop env db ms with
  | mk db1 r =>
    have hstep := createTablesLoop_stepExec env db ms
    rw [hc] at hstep
    obtain ⟨⟨es, hlog, _⟩, _⟩ := hstep
    have hlog1 : db1.log = db.log ++ es := hlog
    cases r with
    | some m => exact ⟨es ++ [Event.rollback], by simp [rollbackDb, hlog1]⟩
    | none => exact ⟨es ++ [Event.commit], by simp [commitDb, setFkChecks, hlog1]⟩

theorem syncGeneric_fail_committed (env : RunEnv) (db : DB) (ms : List String)
    (h : (syncGeneric env db ms).1 = false) :
    committedWrites (syncGeneric env db ms).2.log = committedWrites db.log := by
  unfold syncGeneric at h ⊢
  cases hc : createTablesLoop env db ms with
  | mk db1 r =>
    rw [hc] at h
    have hstep := createTablesLoop_stepExec env db ms
    rw [hc] at hstep
    obtain ⟨⟨es, hlog, hex⟩, _⟩ := hstep
    have hlog1 : db1.log = db.log ++ es := hlog
    cases r with
    | none => simp at h
    | some m =>
      show committedWrites (rollbackDb db1).log = committedWrites db.log
      simp only [rollbackDb]
      rw [hlog1]
      exact committedWrites_execs_rollback db.log hex

set_option maxRecDepth 100000

/-- C7: for all pairs of table-name sets S (source) and T (target),
`compare_structures` computes `missing_in_source = T − S` and
`missing_in_target = S − T`, and both are disjoint from the common set
`S ∩ T` over which column comparison runs. -/
theorem c7_table_set_difference (src tgt : DBSchema) :
    (compare_structures true src tgt).1.toFinset =
      tgt.tables.toFinset \ src.tables.toFinset ∧
    (compare_structures true src tgt).2.1.toFinset =
      src.tables.toFinset \ tgt.tables.toFinset ∧
    Disjoint (compare_structures true src tgt).1.toFinset
      (src.tables.toFinset ∩ tgt.tables.toFinset) ∧
    Disjoint (compare_structures true src tgt).2.1.toFinset
      (src.tables.toFinset ∩ tgt.tables.toFinset) := by
  have hms : (compare_structures true src tgt).1.toFinset =
      tgt.tables.toFinset \ src.tables.toFinset := by
    ext x
    simp [compare_structures, List.mem_filter, List.mem_dedup]
  have hmt : (compare_structures true src tgt).2.1.toFinset =
      src.tables.toFinset \ tgt.tables.toFinset := by
    ext x
    simp [compare_structures, List.mem_filter, List.mem_dedup]
  refine ⟨hms, hmt, ?_, ?_⟩
  · rw [hms, Finset.disjoint_left]
    intro a ha hb
    rw [Finset.mem_sdiff] at ha
    rw [Finset.mem_inter] at hb
    exact ha.2 hb.1
  · rw [hmt, Finset.disjoint_left]
    intro a ha hb
    rw [Finset.mem_sdiff] at ha
    rw [Finset.mem_inter] at hb
    exact ha.2 hb.2

/-- C8: a common table appears in the different-structures result of
`compare_structures` exactly when its two ordered column-descriptor lists
are not list-equal, and when it appears, both full descriptor lists are
attached. -/
theorem c8_structural_difference (src tgt : DBSchema) (tb : String)
    (hs : tb ∈ src.tables) (ht : tb ∈ tgt.tables) :
    (src.columns tb = tgt.columns tb →
      ∀ e ∈ (compare_structures true src tgt).2.2, e.1 ≠ tb) ∧
    (src.columns tb ≠ tgt.columns tb →
      (tb, src.columns tb, tgt.columns tb) ∈
        (compare_structures true src tgt).2.2) ∧
    (∀ e ∈ (compare_structures true src tgt).2.2, e.1 = tb →
      e = (tb, src.columns tb, tgt.columns tb)) := by
  have hds : (compare_structures true src tgt).2.2 =
      (src.tables.dedup.filter (fun t => decide (t ∈ tgt.tables.dedup))).filterMap
        (fun t => if src.columns t ≠ tgt.columns t then
          some (t, src.columns t, tgt.columns t) else none) := rfl
  have hchar : ∀ e ∈ (compare_structures true src tgt).2.2,
      src.columns e.1 ≠ tgt.columns e.1 ∧
      e = (e.1, src.columns e.1, tgt.columns e.1) := by
    intro e he
    rw [hds] at he
    obtain ⟨a, _, hfa⟩ := List.mem_filterMap.mp he
    by_cases hcond : src.columns a ≠ tgt.columns a
    · rw [if_pos hcond] at hfa
      have he2 : e = (a, src.columns a, tgt.columns a) := (Option.some.inj hfa).symm
      subst he2
      exact ⟨hcond, rfl⟩
    · rw [if_neg hcond] at hfa
      exact Option.noConfusion hfa
  refine ⟨?_, ?_, ?_⟩
  · intro heq e he hetb
    obtain ⟨hne, _⟩ := hchar e he
    rw [hetb] at hne
    exact hne heq
  · intro hne
    rw [hds]
    refine List.mem_filterMap.mpr ⟨tb, ?_, ?_⟩
    · refine List.mem_filter.mpr ⟨List.mem_dedup.mpr hs, ?_⟩
      simp [List.mem_dedup, ht]
    · rw [if_pos hne]
  · intro e he hetb
    obtain ⟨_, he2⟩ := hchar e he
    rw [he2, hetb]

/-- C8 witness: on concrete schemas where the common table `users` has
differing column lists, the characterization holds with `users` reported
along with both full lists. -/
theorem c8_structural_difference_witness :
    "users" ∈ schemaUsersSrc.tables ∧ "users" ∈ schemaUsersTgt.tables ∧
    ((schemaUsersSrc.columns "users" = schemaUsersTgt.columns "users" →
      ∀ e ∈ (compare_structures true schemaUsersSrc schemaUsersTgt).2.2,
        e.1 ≠ "users") ∧
    (schemaUsersSrc.columns "users" ≠ schemaUsersTgt.columns "users" →
      ("users", schemaUsersSrc.columns "users", schemaUsersTgt.columns "users") ∈
        (compare_structures true schemaUsersSrc schemaUsersTgt).2.2) ∧
    (∀ e ∈ (compare_structures true schemaUsersSrc schemaUsersTgt).2.2,
      e.1 = "users" →
      e = ("users", schemaUsersSrc.columns "users",
        schemaUsersTgt.columns "users"))) :=
  ⟨by decide, by decide,
    c8_structural_difference schemaUsersSrc schemaUsersTgt "users"
      (by decide) (by decide)⟩

/-- C5: for every target column added by `generate_alter_statements` with a
non-null default, the `DEFAULT` clause is rendered by type category: exact
type `timestamp`/`datetime` with default `CURRENT_TIMESTAMP`
(case-insensitively) gives the unquoted `DEFAULT CURRENT_TIMESTAMP`; a
character/text-category type gives a single-quoted literal; every other
type gives the default unquoted. -/
theorem c5_default_clause (tableName : String)
    (sourceCols targetCols : List Column) (col : Column) (d : String)
    (hmem : col ∈ targetCols)
    (habs : col.field ∉ sourceCols.map Column.field)
    (hdef : col.default = some d) :
    renderColumn tableName col ∈
      generate_alter_statements tableName sourceCols targetCols ∧
    (((strLower col.type = "timestamp" ∨ strLower col.type = "datetime") ∧
        strUpper d = "CURRENT_TIMESTAMP") →
      renderColumn tableName col =
        baseColumnStmt tableName col ++ " DEFAULT CURRENT_TIMESTAMP") ∧
    ((¬ ((strLower col.type = "timestamp" ∨ strLower col.type = "datetime") ∧
        strUpper d = "CURRENT_TIMESTAMP")) →
      (strContains (strLower col.type) "char" = true ∨
        strContains (strLower col.type) "text" = true) →
      renderColumn tableName col =
        baseColumnStmt tableName col ++ " DEFAULT '" ++ d ++ "'") ∧
    ((¬ ((strLower col.type = "timestamp" ∨ strLower col.type = "datetime") ∧
        strUpper d = "CURRENT_TIMESTAMP")) →
      (¬ (strContains (strLower col.type) "char" = true ∨
        strContains (strLower col.type) "text" = true)) →
      renderColumn tableName col =
        baseColumnStmt tableName col ++ " DEFAULT " ++ d) := by
  refine ⟨?_, ?_, ?_, ?_⟩
  · refine List.mem_map.mpr ⟨col, List.mem_filter.mpr ⟨hmem, ?_⟩, rfl⟩
    exact decide_eq_true habs
  · intro hc
    simp only [renderColumn, hdef]
    rw [if_pos hc]
  · intro hn hc
    simp only [renderColumn, hdef]
    rw [if_neg hn, if_pos hc]
  · intro hn hnc
    simp only [renderColumn, hdef]
    rw [if_neg hn, if_neg hnc]

/-- C5 witness: an `int` column with default `0`, absent from the source,
is added with the unquoted clause `DEFAULT 0`. -/
theorem c5_default_clause_witness :
    colIntDef ∈ [colIntDef] ∧
    colIntDef.field ∉ [colA].map Column.field ∧
    colIntDef.default = some "0" ∧
    (renderColumn "t" colIntDef ∈
      generate_alter_statements "t" [colA] [colIntDef] ∧
    (((strLower colIntDef.type = "timestamp" ∨
        strLower colIntDef.type = "datetime") ∧
        strUpper "0" = "CURRENT_TIMESTAMP") →
      renderColumn "t" colIntDef =
        baseColumnStmt "t" colIntDef ++ " DEFAULT CURRENT_TIMESTAMP") ∧
    ((¬ ((strLower colIntDef.type = "timestamp" ∨
        strLower colIntDef.type = "datetime") ∧
        strUpper "0" = "CURRENT_TIMESTAMP")) →
      (strContains (strLower colIntDef.type) "char" = true ∨
        strContains (strLower colIntDef.type) "text" = true) →
      renderColumn "t" colIntDef =
        baseColumnStmt "t" colIntDef ++ " DEFAULT '" ++ "0" ++ "'") ∧
    ((¬ ((strLower colIntDef.type = "timestamp" ∨
        strLower colIntDef.type = "datetime") ∧
        strUpper "0" = "CURRENT_TIMESTAMP")) →
      (¬ (strContains (strLower colIntDef.type) "char" = true ∨
        strContains (strLower colIntDef.type) "text" = true)) →
      renderColumn "t" colIntDef =
        baseColumnStmt "t" colIntDef ++ " DEFAULT " ++ "0")) :=
  ⟨by decide, by decide, rfl,
    c5_default_clause "t" [colA] [colIntDef] colIntDef "0"
      (by decide) (by decide) rfl⟩

/-- C6: `generate_alter_statements` is additive-only: it emits exactly one
`ADD COLUMN` statement per target column whose field name is absent from
the source names, every emitted statement is the rendering of such a
column, and on target columns a, b, c with source columns a, b exactly one
statement (adding c) is produced. -/
theorem c6_additive_only :
    (∀ (tableName : String) (sourceCols targetCols : List Column),
      (generate_alter_statements tableName sourceCols targetCols).length =
        (targetCols.filter (fun col =>
          decide (col.field ∉ sourceCols.map Column.field))).length ∧
      ∀ s ∈ generate_alter_statements tableName sourceCols targetCols,
        ∃ col ∈ targetCols, col.field ∉ sourceCols.map Column.field ∧
          s = renderColumn tableName col) ∧
    generate_alter_statements "t" [colA, colB] [colA, colB, colC] =
      [renderColumn "t" colC] ∧
    renderColumn "t" colC = "ALTER TABLE t ADD COLUMN c int" := by
  refine ⟨fun tableName sourceCols targetCols => ⟨?_, ?_⟩, ?_, ?_⟩
  · exact List.length_map _ _
  · intro s hs
    obtain ⟨col, hmem, hrend⟩ := List.mem_map.mp hs
    obtain ⟨hmem2, hpred⟩ := List.mem_filter.mp hmem
    exact ⟨col, hmem2, of_decide_eq_true hpred, hrend.symm⟩
  · decide
  · decide

/-- C9: for a character/text-category target column with a non-null
default, the `DEFAULT` clause is built by direct string concatenation as
`DEFAULT '<value>'`, so the default's characters — a single quote
included — appear verbatim, unescaped, between the added quote
characters. -/
theorem c9_unescaped_quote (tableName : String) (col : Column) (d : String)
    (hct : strContains (strLower col.type) "char" = true ∨
      strContains (strLower col.type) "text" = true)
    (hdef : col.default = some d) :
    renderColumn tableName col =
      baseColumnStmt tableName col ++ " DEFAULT '" ++ d ++ "'" ∧
    (renderColumn tableName col).toList =
      (baseColumnStmt tableName col).toList ++
        (" DEFAULT '").toList ++ d.toList ++ ['\''] := by
  have hn : ¬ ((strLower col.type = "timestamp" ∨
      strLower col.type = "datetime") ∧ strUpper d = "CURRENT_TIMESTAMP") := by
    rintro ⟨hty | hty, -⟩ <;> rw [hty] at hct <;> revert hct <;> decide
  have h1 : renderColumn tableName col =
      baseColumnStmt tableName col ++ " DEFAULT '" ++ d ++ "'" := by
    simp only [renderColumn, hdef]
    rw [if_neg hn, if_pos hct]
  refine ⟨h1, ?_⟩
  rw [h1]
  simp [String.toList]

/-- C9 witness: a `varchar(100)` column whose default is `it's` produces a
statement in which the inner quote appears unescaped. -/
theorem c9_unescaped_quote_witness :
    (strContains (strLower colNote.type) "char" = true ∨
      strContains (strLower colNote.type) "text" = true) ∧
    colNote.default = some "it's" ∧
    (renderColumn "t" colNote =
      baseColumnStmt "t" colNote ++ " DEFAULT '" ++ "it's" ++ "'" ∧
    (renderColumn "t" colNote).toList =
      (baseColumnStmt "t" colNote).toList ++
        (" DEFAULT '").toList ++ ("it's").toList ++ ['\'']) :=
  ⟨by decide, rfl, c9_unescaped_quote "t" colNote "it's" (by decide) rfl⟩

/-- C1 (code bug): on a run whose only difference is a common table with
differing column lists, the executing copy of `sync_structures` reports
success while executing no statement at all — in particular none of the
(nonempty) `ALTER TABLE` statements `generate_alter_statements` would
produce for that table.  The different-structures loop exists only in the
unreachable duplicate bodies after the first `return`. -/
theorem c1_alter_statements_not_executed :
    generate_alter_statements "users" (schemaUsersSrc.columns "users")
      (schemaUsersTgt.columns "users") ≠ [] ∧
    sync_structures envUsersDiffer =
      (true, { log := [Event.commit], fkChecks := true }) := by
  exact ⟨by decide, by decide⟩

/-- C2 counterexample: on a run where `connect()` fails (and the schemas do
differ), `sync_structures` reports success, contradicting the claim that it
does not report success when a connection fails. -/
theorem c2_counterexample :
    connect envConnFail = false ∧
    sync_structures envConnFail = (true, DB.init) :=
  ⟨rfl, by decide⟩

/-- C2 amended: when establishing a connection fails, `connect()` returns
failure and `sync_structures` executes no DDL — but it reports success
(treating the empty diff that `compare_structures` returns on connection
failure as "nothing to do") instead of aborting. -/
theorem c2_conn_fail_silent_success (env : RunEnv)
    (h : connect env = false) :
    (sync_structures env).1 = true ∧ (sync_structures env).2 = DB.init := by
  have hcmp : compare_structures (connect env) env.src env.tgt = ([], [], []) := by
    rw [h]
    rfl
  simp only [sync_structures, hcmp]
  exact ⟨rfl, rfl⟩

/-- C2 witness: the amended claim holds on the concrete failing-connection
run. -/
theorem c2_conn_fail_silent_success_witness :
    connect envConnFail = false ∧
    ((sync_structures envConnFail).1 = true ∧
      (sync_structures envConnFail).2 = DB.init) :=
  ⟨rfl, c2_conn_fail_silent_success envConnFail rfl⟩

/-- C3 counterexample: a failing sync run after which committed writes
remain on the source — the special-case handler committed its drop/recreate
of `dosen_wali_prodi` before the generic creation of `orders` failed, so
the claimed all-or-nothing rollback does not hold. -/
theorem c3_counterexample :
    (sync_structures envHandlerThenFail).1 = false ∧
    committedWrites (sync_structures envHandlerThenFail).2.log ≠ [] :=
  ⟨by decide, by decide⟩

/-- C3 amended: for every failing sync run, exactly the writes committed by
the special-case handler's own `commit()` persist (none, when the handler
was not invoked or itself failed before committing); every write issued
after the handler's commit is rolled back. -/
theorem c3_rollback_spares_handler_commit (env : RunEnv)
    (h : (sync_structures env).1 = false) :
    committedWrites (sync_structures env).2.log =
      committedWrites (handlerPortion env) := by
  by_cases h0 : ((compare_structures (connect env) env.src env.tgt).1.isEmpty &&
      (compare_structures (connect env) env.src env.tgt).2.2.isEmpty) = true
  · have hsync : sync_structures env = (true, DB.init) := by
      simp only [sync_structures]
      rw [h0, if_pos rfl]
    rw [hsync] at h
    simp at h
  · have h0' : ((compare_structures (connect env) env.src env.tgt).1.isEmpty &&
        (compare_structures (connect env) env.src env.tgt).2.2.isEmpty) = false := by
      cases hb : ((compare_structures (connect env) env.src env.tgt).1.isEmpty &&
          (compare_structures (connect env) env.src env.tgt).2.2.isEmpty) with
      | false => rfl
      | true => exact absurd hb h0
    cases hneed : needsDosenHandling
        (compare_structures (connect env) env.src env.tgt).1
        (compare_structures (connect env) env.src env.tgt).2.2 with
    | false =>
      rw [sync_no_dosen env h0' hneed] at h ⊢
      rw [syncGeneric_fail_committed _ _ _ h]
      simp [handlerPortion, hneed, committedWrites, evalLog, setFkChecks, DB.init]
    | true =>
      cases hr : (handlerRun env).1 with
      | false =>
        rw [sync_handler_fail env hneed hr]
        simp [handlerPortion, hneed]
      | true =>
        rw [sync_handler_success env hneed hr] at h ⊢
        rw [syncGeneric_fail_committed _ _ _ h]
        simp [handlerPortion, hneed]

/-- C3 witness: the amended claim applied to the concrete run in which the
handler committed and the generic step then failed. -/
theorem c3_rollback_spares_handler_commit_witness :
    (sync_structures envHandlerThenFail).1 = false ∧
    committedWrites (sync_structures envHandlerThenFail).2.log =
      committedWrites (handlerPortion envHandlerThenFail) :=
  ⟨by decide,
    c3_rollback_spares_handler_commit envHandlerThenFail (by decide)⟩

/-- C4: whenever the detected diff implicates `dosen` or `dosen_wali_prodi`,
the special-case handler runs before any generic handling: if it fails the
whole sync fails with exactly the handler's session state (no generic work),
and if it succeeds its log ends — whatever the particular difference
was — with the unconditional drop of `dosen_wali_prodi`, its recreation
with the fixed hardcoded schema, the two foreign-key re-additions and the
handler's commit, after which the generic handling only appends. -/
theorem c4_dosen_special_case (env : RunEnv)
    (hneed : needsDosenHandling
      (compare_structures (connect env) env.src env.tgt).1
      (compare_structures (connect env) env.src env.tgt).2.2 = true) :
    ((handlerRun env).1 = false →
      sync_structures env = (false, (handlerRun env).2)) ∧
    ((handlerRun env).1 = true →
      (∃ es, (sync_structures env).2.log = (handlerRun env).2.log ++ es) ∧
      ∃ pre, (handlerRun env).2.log = pre ++
        [Event.exec dropWaliProdiStmt, Event.exec createWaliProdiStmt,
         Event.exec waliProdiFk1Stmt, Event.exec waliProdiFk2Stmt,
         Event.commit]) := by
  constructor
  · exact sync_handler_fail env hneed
  · intro hsucc
    constructor
    · rw [sync_handler_success env hneed hsucc]
      exact syncGeneric_log env (handlerRun env).2 _
    · exact handler_success_shape env.henv env.oracle
        (setFkChecks DB.init false) hsucc

/-- C4 witness: the concrete run where `dosen` differs: the handler
succeeds, its log ends with the drop/recreate/re-link/commit sequence, and
the sync log extends it. -/
theorem c4_dosen_special_case_witness :
    needsDosenHandling
      (compare_structures (connect envHandlerThenFail)
        envHandlerThenFail.src envHandlerThenFail.tgt).1
      (compare_structures (connect envHandlerThenFail)
        envHandlerThenFail.src envHandlerThenFail.tgt).2.2 = true ∧
    (((handlerRun envHandlerThenFail).1 = false →
      sync_structures envHandlerThenFail =
        (false, (handlerRun envHandlerThenFail).2)) ∧
    ((handlerRun envHandlerThenFail).1 = true →
      (∃ es, (sync_structures envHandlerThenFail).2.log =
        (handlerRun envHandlerThenFail).2.log ++ es) ∧
      ∃ pre, (handlerRun envHandlerThenFail).2.log = pre ++
        [Event.exec dropWaliProdiStmt, Event.exec createWaliProdiStmt,
         Event.exec waliProdiFk1Stmt, Event.exec waliProdiFk2Stmt,
         Event.commit])) :=
  ⟨by decide, c4_dosen_special_case envHandlerThenFail (by decide)⟩

/-- C10: when the special-case handler reports failure, `sync_structures`
returns failure with exactly the handler's session state: foreign-key
checks are still disabled (the `SET FOREIGN_KEY_CHECKS=0` issued at the
start of the sync is never undone), no sync-level rollback is issued — the
only rollback in the log is the handler's own — and no commit happened. -/
theorem c10_handler_failure_leaves_fk_disabled (env : RunEnv)
    (hneed : needsDosenHandling
      (compare_structures (connect env) env.src env.tgt).1
      (compare_structures (connect env) env.src env.tgt).2.2 = true)
    (hfail : (handlerRun env).1 = false) :
    sync_structures env = (false, (handlerRun env).2) ∧
    (handlerRun env).2.fkChecks = false ∧
    (handlerRun env).2.log.count Event.rollback = 1 ∧
    Event.commit ∉ (handlerRun env).2.log := by
  obtain ⟨es, hlog, hex, hfk⟩ := handler_fail_shape env.henv env.oracle
    (setFkChecks DB.init false) rfl hfail
  have hlog1 : (handlerRun env).2.log = [] ++ es ++ [Event.rollback] := hlog
  have hfk1 : (handlerRun env).2.fkChecks = false := hfk
  refine ⟨sync_handler_fail env hneed hfail, hfk1, ?_, ?_⟩
  · rw [hlog1]
    rw [List.count_append, List.count_eq_zero.mpr]
    · rfl
    · intro hmem
      rcases List.mem_append.mp hmem with hmem1 | hmem2
      · exact absurd hmem1 (List.not_mem_nil _)
      · exact execOnly_not_rollback hex hmem2
  · rw [hlog1]
    intro hmem
    rcases List.mem_append.mp hmem with hmem1 | hmem2
    · rcases List.mem_append.mp hmem1 with hmem3 | hmem4
      · exact absurd hmem3 (List.not_mem_nil _)
      · exact execOnly_not_commit hex hmem4
    · exact Event.noConfusion (List.mem_singleton.mp hmem2)

/-- C10 witness: the concrete run where recreating `dosen_wali_prodi`
fails: the sync returns failure with foreign-key checks left disabled and
only the handler's rollback in the log. -/
theorem c10_handler_failure_leaves_fk_disabled_witness :
    needsDosenHandling
      (compare_structures (connect envHandlerFails)
        envHandlerFails.src envHandlerFails.tgt).1
      (compare_structures (connect envHandlerFails)
        envHandlerFails.src envHandlerFails.tgt).2.2 = true ∧
    (handlerRun envHandlerFails).1 = false ∧
    (sync_structures envHandlerFails = (false, (handlerRun envHandlerFails).2) ∧
    (handlerRun envHandlerFails).2.fkChecks = false ∧
    (handlerRun envHandlerFails).2.log.count Event.rollback = 1 ∧
    Event.commit ∉ (handlerRun envHandlerFails).2.log) :=
  ⟨by decide, by decide,
    c10_handler_failure_leaves_fk_disabled envHandlerFails
      (by decide) (by decide)⟩
